import Mathlib

/-!
Verification of the openweather_pub historical ingestion pipeline.

Shallow embedding of the core components of the repository:
the quota / rate / circuit-breaker governor (`src/services/api_control.py`),
the run tracker (`src/services/api_logger.py`), the gap detection and batch
materialization scripts (`scripts/openweather_historical_fill_daily.py`,
`scripts/openweather_historical_fill_hourly.py`), and the two
fetch-validate-store engines (`src/services/openweather_summary.py`,
`src/services/openweather_timemachine.py`).

Database tables are modelled as explicit state values, network I/O as a
function from attempt index to an attempt result, and Python floats as
rationals. Each definition is translated from the named Python function.
-/

namespace OpenWeatherPub

/-! ## Governor: `APIControl` (src/services/api_control.py) -/

/-- Embedding of `APIControl.check_failure_rate`. `failureCount` is the number
of rows in `api_calls` for the platform in the trailing 2 minutes with
`response_code != 200`, `successCount` the number with `response_code = 200`.
The Python code is
`failure_count > 10 and (success_count > 0 and (failure_count / success_count) > 0.2)`;
float division and the literal `0.2` are modelled exactly over the rationals. -/
def check_failure_rate (failureCount successCount : Nat) : Bool :=
  decide (failureCount > 10) &&
    (decide (successCount > 0) &&
      decide ((failureCount : ℚ) / (successCount : ℚ) > 0.2))

/-- One upsert into the `api_script_tracking` table as performed by
`APILogging.insert_tracking_log`: the new status label, the optional
stopped reason, and the force-restart flag. -/
structure TrackingUpsert where
  status : String
  stoppedReason : Option String
  forceRestart : Bool
deriving Repr, DecidableEq

/-- The tracked row in `api_script_tracking` for one
(script, platform, call-type) triple. `requestsMadeToday` is the persisted
counter column, distinct from the live count computed from `api_calls`. -/
structure TrackingState where
  status : String
  previousStatus : Option String
  requestsMadeToday : Nat
  dailyLimitReached : Bool
  stoppedReason : Option String
  forceRestart : Bool
deriving Repr, DecidableEq

/-- Embedding of `APILogging.insert_tracking_log` acting on an existing
tracking row. The SQL first SELECTs the current status as the previous
status, then upserts; the `ON CONFLICT DO UPDATE` clause sets status,
previous_status, last_checked, stopped_reason and force_restart but leaves
`requests_made_today` and `daily_limit_reached` untouched on an existing row. -/
def insert_tracking_log (st : TrackingState) (u : TrackingUpsert) : TrackingState :=
  { st with
    previousStatus := some st.status
    status := u.status
    stoppedReason := u.stoppedReason
    forceRestart := u.forceRestart }

/-- Folding a list of tracking upserts over a tracking row, in order. -/
def applyUpserts (st : TrackingState) (us : List TrackingUpsert) : TrackingState :=
  us.foldl insert_tracking_log st

/-- Embedding of `APIControl.check_daily_limit_reached`. `requestsToday` is
the live count of `api_calls` rows since 00:00 UTC (the result of
`requests_today()`), `dailyLimit` the configured cap. Returns the updated
tracking row and the boolean the Python function returns (`True` = halt).
The limit branch issues a direct UPDATE setting `daily_limit_reached = TRUE`
and then an `insert_tracking_log` with status stopped-warn, reason
"Daily limit reached" and force_restart False; the rollover branch resets
the persisted counter and flag without a tracking-status transition. -/
def check_daily_limit_reached (requestsToday dailyLimit : Nat)
    (st : TrackingState) : TrackingState × Bool :=
  if requestsToday ≥ dailyLimit then
    (insert_tracking_log { st with dailyLimitReached := true }
      ⟨"stopped-warn", some "Daily limit reached", false⟩, true)
  else if requestsToday = 0 then
    ({ st with requestsMadeToday := 0, dailyLimitReached := false }, false)
  else
    (st, false)

/-! ## Gap detection and batch materialization
(scripts/openweather_historical_fill_daily.py,
scripts/openweather_historical_fill_hourly.py)

Time keys are modelled as integer epoch seconds; the daily pipeline uses
a stride of 86400 seconds, the hourly one 3600 seconds. -/

/-- Number of elements produced by PostgreSQL
`generate_series(stopT, startT, stride)` with a positive stride:
`stopT, stopT + stride, ...` while the value stays at most `startT`. -/
def seriesLen (stopT startT stride : Int) : Nat :=
  if stopT ≤ startT then ((startT - stopT) / stride).toNat + 1 else 0

/-- The series `generate_series(stopT, startT, stride)` itself. -/
def genSeries (stopT startT stride : Int) : List Int :=
  List.map (fun k : Nat => stopT + (k : Int) * stride)
    (List.range (seriesLen stopT startT stride))

/-- Common core of the two gap queries: the generated calendar sequence
anti-joined against the existing keys (`LEFT JOIN ... WHERE e IS NULL`). -/
def gapDetect (existing : List Int) (stopT startT stride : Int) : List Int :=
  (genSeries stopT startT stride).filter (fun d => decide (d ∉ existing))

/-- Embedding of `generate_missing_daily_timestamps` from
`openweather_historical_fill_daily.py`: `main` passes
`(conn, start_time, stop_time)` into parameters `(conn, stop_time, start_time)`
and the SQL runs `generate_series` from the chronological stop up to the start
with a 1 day step, anti-joined against `daily_summary_data.date`. -/
def generate_missing_daily_timestamps (existing : List Int) (stopT startT : Int) :
    List Int :=
  gapDetect existing stopT startT 86400

/-- Embedding of `generate_missing_timestamps` from
`openweather_historical_fill_hourly.py`: the same query with a 1 hour step,
anti-joined against `hourly_data.dt`. -/
def generate_missing_timestamps (existing : List Int) (stopT startT : Int) :
    List Int :=
  gapDetect existing stopT startT 3600

/-- Embedding of the list computation in `create_batch_file` (identical in the
daily and the hourly script): `list(reversed(timestamps))[:limit]`. The
serialized batch content is this list. -/
def create_batch_file (timestamps : List α) (limit : Nat) : List α :=
  timestamps.reverse.take limit

/-- Embedding of `validate_time_range`: raises
`ValueError` when `start_time <= stop_time`. -/
def validate_time_range (startT stopT : Int) : Except String Unit :=
  if startT ≤ stopT then
    Except.error "HISTORY_START must be more recent than HISTORY_STOP"
  else
    Except.ok ()

/-- Observable outcome of one run of the fill script `main`. `exitCode` is
the status the process exits with where `main` itself determines it
(`some 0` when `main` returns normally and the interpreter exits); it is
`none` on the path that hands control to the engine `run`, whose exit
behavior is modelled separately. -/
structure MainOutcome where
  exitCode : Option Nat
  configErrorReported : Bool
  ranGapQuery : Bool
  createdBatch : Bool
  ranEngine : Bool
  printedNoWork : Bool
deriving Repr, DecidableEq

/-- Embedding of `main` from `openweather_historical_fill_daily.py`
(the hourly script has the same shape). A `ValueError` from
`validate_time_range` is caught by the `except ValueError` handler, which
prints a Configuration Error message and returns; the process then ends
normally with status 0. Only when validation passes does the script run the
gap query, and only a nonempty gap list leads to a batch file and an engine
run. -/
def mainDaily (startT stopT : Int) (existing : List Int) : MainOutcome :=
  match validate_time_range startT stopT with
  | Except.error _ =>
    { exitCode := some 0, configErrorReported := true, ranGapQuery := false,
      createdBatch := false, ranEngine := false, printedNoWork := false }
  | Except.ok _ =>
    let gaps := generate_missing_daily_timestamps existing stopT startT
    if gaps.isEmpty then
      { exitCode := some 0, configErrorReported := false, ranGapQuery := true,
        createdBatch := false, ranEngine := false, printedNoWork := true }
    else
      { exitCode := none, configErrorReported := false, ranGapQuery := true,
        createdBatch := true, ranEngine := true, printedNoWork := false }

/-! ## Fetch engines: `call_openweather_api`
(src/services/openweather_summary.py, src/services/openweather_timemachine.py)

The network is modelled as a function from attempt index to an attempt
result: either a raised `requests.exceptions.RequestException` (a transient
transport error) or an HTTP response with a status code and a flag recording
whether the body text contains the substring "out the available range". -/

/-- What one HTTP attempt yields. -/
inductive AttemptResult
  | transportError
  | response (code : Nat) (bodyHasOutOfRangeText : Bool)
deriving Repr, DecidableEq

/-- How control leaves the call helper for one key. `crashNoneUnpack` models
the daily helper falling off the end of its retry loop: the function then
returns a bare `None`, and the caller in `run` raises a `TypeError` when
unpacking it as a tuple, aborting the run. -/
inductive CallOutcome
  | success
  | skipKey
  | fatalExit
  | crashNoneUnpack
deriving Repr, DecidableEq

/-- Observable effect of one `call_openweather_api` invocation: the control
outcome, the increment applied to the in-memory `failed_requests` counter,
the number of `update_requests_made_today` calls issued, and the tracking
upserts issued (in order). -/
structure CallResult where
  outcome : CallOutcome
  failedRequestsDelta : Nat
  counterUpdates : Nat
  tracking : List TrackingUpsert
deriving Repr, DecidableEq

/-- Loop body of `OpenWeatherDailySummary.call_openweather_api`, recursing
over the remaining attempt indices of `for attempt in range(max_retries)`
with `max_retries = 3`. On a `RequestException` the code retries unless this
is the last attempt, in which case it records the outcome (tracking status
Processing, force_restart True), bumps the daily counter and returns
`(None, None)` so the run continues. Status codes 200, 400-with-range-text,
404, 403 and >= 500 each return or exit; any other code matches no branch,
so the loop silently continues, and if every attempt ends that way the
function falls off the loop and returns a bare `None`. -/
def dailySummaryCallAux (net : Nat → AttemptResult) (total completed : Nat) :
    List Nat → CallResult
  | [] =>
    { outcome := .crashNoneUnpack, failedRequestsDelta := 0,
      counterUpdates := 0, tracking := [] }
  | attempt :: rest =>
    match net attempt with
    | .transportError =>
      if rest.isEmpty then
        { outcome := .skipKey, failedRequestsDelta := 0, counterUpdates := 1,
          tracking :=
            [⟨"Processing",
              some "Error fetching data after 3 attempts. Skipping this date",
              true⟩] }
      else
        dailySummaryCallAux net total completed rest
    | .response code hasRangeText =>
      if code = 200 then
        { outcome := .success, failedRequestsDelta := 0, counterUpdates := 1,
          tracking :=
            [⟨"Processing: " ++ toString completed ++ " of " ++ toString total,
              none, false⟩] }
      else if code = 400 ∧ hasRangeText then
        { outcome := .skipKey, failedRequestsDelta := 1, counterUpdates := 1,
          tracking :=
            [⟨"Processing",
              some "API Error: call failed with status 400: Invalid date",
              false⟩] }
      else if code = 404 then
        { outcome := .fatalExit, failedRequestsDelta := 0, counterUpdates := 1,
          tracking :=
            [⟨"stopped-err", some "API call failed with status 404: Not Found",
              true⟩] }
      else if code = 403 then
        { outcome := .fatalExit, failedRequestsDelta := 0, counterUpdates := 1,
          tracking :=
            [⟨"stopped-err",
              some "API call failed with status 403: Forbidden (Invalid API Key)",
              true⟩] }
      else if 500 ≤ code then
        { outcome := .fatalExit, failedRequestsDelta := 0, counterUpdates := 1,
          tracking := [⟨"stopped-err", some "Server Error during API call", true⟩] }
      else
        dailySummaryCallAux net total completed rest

/-- Embedding of `OpenWeatherDailySummary.call_openweather_api`:
the attempt loop run over the indices `range(3)`. -/
def call_openweather_api_daily (net : Nat → AttemptResult)
    (total completed : Nat) : CallResult :=
  dailySummaryCallAux net total completed [0, 1, 2]

/-- Embedding of `OpenWeatherTimemachine.call_openweather_api`. This helper
has no retry loop: it issues exactly one `requests.get`. A transport
exception propagates to the outer `except Exception` handler, which logs,
upserts tracking (stopped-err, force_restart True), bumps the daily counter
and calls `sys.exit(1)`. Unlike the daily helper, it has an explicit `else`
branch for unclassified status codes: count as a failure, upsert tracking
(Processing, force_restart True) and return `(None, api_call_id)`. -/
def call_openweather_api_hourly (r : AttemptResult) (total completed : Nat) :
    CallResult :=
  match r with
  | .transportError =>
    { outcome := .fatalExit, failedRequestsDelta := 0, counterUpdates := 1,
      tracking := [⟨"stopped-err", some "API Error", true⟩] }
  | .response code hasRangeText =>
    if code = 200 then
      { outcome := .success, failedRequestsDelta := 0, counterUpdates := 1,
        tracking :=
          [⟨"Processing: " ++ toString completed ++ " of " ++ toString total,
            none, false⟩] }
    else if code = 400 ∧ hasRangeText then
      { outcome := .skipKey, failedRequestsDelta := 1, counterUpdates := 1,
        tracking :=
          [⟨"Processing",
            some "API Error: call failed with status 400: Invalid date",
            false⟩] }
    else if code = 404 then
      { outcome := .fatalExit, failedRequestsDelta := 0, counterUpdates := 1,
        tracking :=
          [⟨"stopped-err",
            some "API call failed with status 404: Not Found (URL might be wrong)",
            true⟩] }
    else if code = 403 then
      { outcome := .fatalExit, failedRequestsDelta := 0, counterUpdates := 1,
        tracking :=
          [⟨"stopped-err",
            some "API call failed with status 403: Forbidden (Invalid API Key)",
            true⟩] }
    else if 500 ≤ code then
      { outcome := .fatalExit, failedRequestsDelta := 0, counterUpdates := 1,
        tracking := [⟨"stopped-err", some "Server Error during API call", true⟩] }
    else
      { outcome := .skipKey, failedRequestsDelta := 1, counterUpdates := 1,
        tracking :=
          [⟨"Processing", some "API Error: Unhandled API error", true⟩] }

/-! ## Payload validation: `extract_and_validate_weather_data`

A JSON field can be absent, present with value `null`, or present with a
value; the three cases behave differently under the `.get` chains and the
`[]` subscripts of the Python code, so they are modelled explicitly. -/

/-- A JSON object member: absent, explicit null, or a value. -/
inductive JField (α : Type)
  | absent
  | null
  | val (v : α)
deriving Repr, DecidableEq

/-- Result of a Python `.get(key, default)` chain landing on this member:
an absent member yields the default, a null member yields `None`. -/
def JField.extract (d : α) : JField α → Option α
  | .absent => some d
  | .null => none
  | .val v => some v

/-- Result of a Python `.get(key)` with no default: absent and null both
yield `None`. -/
def JField.extractOpt : JField α → Option α
  | .absent => none
  | .null => none
  | .val v => some v

/-- Result of a Python `obj[key]` subscript: an absent member raises
`KeyError` (outer `none`), a present member yields its stored value, which
is `None` for a null member (inner `none`). -/
def JField.getItem : JField α → Option (Option α)
  | .absent => none
  | .null => some none
  | .val v => some (some v)

/-- The daily-summary API response body, with every member the daily
validator touches. `date` and `tz` abstract the textual fields: `val`
carries the parsed value (epoch seconds, offset seconds), `null` models a
null (or unparseable) member on which `strptime` or `convert_tz_to_seconds`
raises inside the `try`, and `absent` the member defaulting to
"1970-01-01" and "00:00" respectively. -/
structure DailySummaryPayload where
  lat : JField ℚ
  lon : JField ℚ
  date : JField Int
  tz : JField Int
  units : JField String
  cloudCoverAfternoon : JField ℚ
  humidityAfternoon : JField ℚ
  precipitationTotal : JField ℚ
  temperatureMin : JField ℚ
  temperatureMax : JField ℚ
  temperatureAfternoon : JField ℚ
  temperatureNight : JField ℚ
  temperatureEvening : JField ℚ
  temperatureMorning : JField ℚ
  pressureAfternoon : JField ℚ
  windMaxSpeed : JField ℚ
  windMaxDirection : JField Int
deriving Repr, DecidableEq

/-- The `validated_data` dict of the daily pipeline, which is also the row
inserted into `daily_summary_data`. Members extracted with a default can
still hold `None` when the source member was null, hence the `Option`
types on everything not guaranteed by the validator. -/
structure ValidatedDaily where
  lat : Option ℚ
  lon : Option ℚ
  tzoff : Int
  date : Int
  units : Option String
  cloudCoverAfternoon : Option ℚ
  humidityAfternoon : Option ℚ
  precipitationTotal : Option ℚ
  temperatureMin : Option ℚ
  temperatureMax : Option ℚ
  temperatureAfternoon : Option ℚ
  temperatureNight : Option ℚ
  temperatureEvening : Option ℚ
  temperatureMorning : Option ℚ
  pressureAfternoon : Option ℚ
  windMaxSpeed : Option ℚ
  windMaxDirection : Option Int
deriving Repr, DecidableEq

/-- Embedding of `OpenWeatherDailySummary.extract_and_validate_weather_data`.
The code first parses the date (default "1970-01-01", epoch 0; a null or
unparseable date raises and the outer `except` returns `None`), then
extracts every field through `.get(..., default)` chains, aborts with `None`
whenever one of the seven critical variables `is None` (which happens only
for explicit nulls, since absent members took the default), and otherwise
builds `validated_data`, converting `tz` (a null there also raises). -/
def extract_and_validate_daily (p : DailySummaryPayload) :
    Option ValidatedDaily :=
  match p.date.extract 0, p.tz.extract 0 with
  | some dateUnix, some tzoff =>
    let cloudCover := p.cloudCoverAfternoon.extract 0
    let humidity := p.humidityAfternoon.extract 0
    let precipitation := p.precipitationTotal.extract 0
    let tempMin := p.temperatureMin.extract 0
    let tempMax := p.temperatureMax.extract 0
    let pressure := p.pressureAfternoon.extract 0
    let windSpeed := p.windMaxSpeed.extract 0
    if cloudCover.isNone ∨ humidity.isNone ∨ precipitation.isNone ∨
        tempMin.isNone ∨ tempMax.isNone ∨ pressure.isNone ∨ windSpeed.isNone then
      none
    else
      some
        { lat := p.lat.extract 0
          lon := p.lon.extract 0
          tzoff := tzoff
          date := dateUnix
          units := p.units.extract "metric"
          cloudCoverAfternoon := cloudCover
          humidityAfternoon := humidity
          precipitationTotal := precipitation
          temperatureMin := tempMin
          temperatureMax := tempMax
          temperatureAfternoon := p.temperatureAfternoon.extract 0
          temperatureNight := p.temperatureNight.extract 0
          temperatureEvening := p.temperatureEvening.extract 0
          temperatureMorning := p.temperatureMorning.extract 0
          pressureAfternoon := pressure
          windMaxSpeed := windSpeed
          windMaxDirection := p.windMaxDirection.extract 0 }
  | _, _ => none

/-- One element of the `data` array of a timemachine response.
`description` abstracts the composite access
`weather_data.get('weather', [{}])[0].get('description')`: `absent` covers a
missing or empty `weather` array or a missing member, `null` an explicit
null, `val` the string. -/
structure HourlyPoint where
  dt : JField Int
  sunrise : JField Int
  sunset : JField Int
  temp : JField ℚ
  feelsLike : JField ℚ
  pressure : JField ℚ
  humidity : JField ℚ
  dewPoint : JField ℚ
  visibility : JField ℚ
  description : JField String
  clouds : JField ℚ
  windSpeed : JField ℚ
  windDeg : JField ℚ
deriving Repr, DecidableEq

/-- The timemachine response body: top-level members plus the `data` array. -/
structure HourlyResponse where
  lat : JField ℚ
  lon : JField ℚ
  timezone : JField String
  timezoneOffset : JField Int
  dataPoints : List HourlyPoint
deriving Repr, DecidableEq

/-- The `validated_data` dict of the hourly pipeline. Members read with a
bare `[]` subscript can still hold `None` when the source member was null. -/
structure ValidatedHourly where
  dt : Option Int
  sunrise : Option Int
  sunset : Option Int
  temp : Option ℚ
  feelsLike : Option ℚ
  pressure : Option ℚ
  humidity : Option ℚ
  dewPoint : Option ℚ
  visibility : ℚ
  description : String
  clouds : Option ℚ
  windSpeed : Option ℚ
  windDeg : Option ℚ
  lat : Option ℚ
  lon : Option ℚ
  timezone : Option String
  timezoneOffset : Option Int
deriving Repr, DecidableEq

/-- Embedding of `OpenWeatherTimemachine.extract_and_validate_weather_data`.
`data['data'][0]` raises `IndexError` on an empty array (caught, `None`);
`visibility` is defaulted to 0 when missing or non-numeric; the five
critical members abort with `None` when `.get` yields `None` (absent or
null); a falsy description (missing, null or empty) aborts; the final dict
is built with `[]` subscripts, so any remaining absent member raises
`KeyError` (caught, `None`). -/
def extract_and_validate_hourly (r : HourlyResponse) : Option ValidatedHourly :=
  match r.dataPoints.head? with
  | none => none
  | some w =>
    if w.temp.extractOpt.isNone ∨ w.feelsLike.extractOpt.isNone ∨
        w.pressure.extractOpt.isNone ∨ w.humidity.extractOpt.isNone ∨
        w.dt.extractOpt.isNone then
      none
    else
      match w.description.extractOpt with
      | none => none
      | some desc =>
        if desc = "" then
          none
        else do
          let dtVal ← w.dt.getItem
          let sunriseVal ← w.sunrise.getItem
          let sunsetVal ← w.sunset.getItem
          let tempVal ← w.temp.getItem
          let feelsLikeVal ← w.feelsLike.getItem
          let pressureVal ← w.pressure.getItem
          let humidityVal ← w.humidity.getItem
          let dewPointVal ← w.dewPoint.getItem
          let cloudsVal ← w.clouds.getItem
          let windSpeedVal ← w.windSpeed.getItem
          let windDegVal ← w.windDeg.getItem
          let latVal ← r.lat.getItem
          let lonVal ← r.lon.getItem
          let timezoneVal ← r.timezone.getItem
          let timezoneOffsetVal ← r.timezoneOffset.getItem
          pure
            { dt := dtVal
              sunrise := sunriseVal
              sunset := sunsetVal
              temp := tempVal
              feelsLike := feelsLikeVal
              pressure := pressureVal
              humidity := humidityVal
              dewPoint := dewPointVal
              visibility := (w.visibility.extract 0).getD 0
              description := desc
              clouds := cloudsVal
              windSpeed := windSpeedVal
              windDeg := windDegVal
              lat := latVal
              lon := lonVal
              timezone := timezoneVal
              timezoneOffset := timezoneOffsetVal }

/-! ## Idempotent store: `store_weather_data` -/

/-- Observable effect of one `store_weather_data` call: the table after the
call, the Python return value (1 inserted, 0 duplicate or failure), the
increment applied to `failed_sql_inserts`, and the status and error columns
of the `sql_handling` audit row written. -/
structure StoreResult (ρ : Type) where
  db : List ρ
  returnValue : Nat
  failedInsertsDelta : Nat
  sqlStatus : String
  sqlError : Option String
deriving Repr, DecidableEq

/-- Embedding of `OpenWeatherDailySummary.store_weather_data`. The duplicate
check is `SELECT 1 FROM daily_summary_data WHERE date = %s` on the date key
alone; a hit logs a failure audit row with "Duplicate record", counts a
failed insert and returns 0 before any INSERT, so the existing row is never
touched. Otherwise the row is inserted and a success audit row written.
(The `IntegrityError` and generic exception handlers are unreachable in
this sequential model: the duplicate branch already returns.) -/
def store_weather_data_daily (db : List ValidatedDaily) (d : ValidatedDaily) :
    StoreResult ValidatedDaily :=
  if db.any (fun row => row.date == d.date) then
    { db := db, returnValue := 0, failedInsertsDelta := 1,
      sqlStatus := "failure", sqlError := some "Duplicate record" }
  else
    { db := db ++ [d], returnValue := 1, failedInsertsDelta := 0,
      sqlStatus := "Successfully inserted data", sqlError := none }

/-- A row of `hourly_data`: the validated data plus the `location_id`
column the engine supplies (`self.location_id`). -/
structure StoredHourly where
  data : ValidatedHourly
  locationId : Nat
deriving Repr, DecidableEq

/-- Embedding of `OpenWeatherTimemachine.store_weather_data`. The duplicate
check is `SELECT 1 FROM hourly_data WHERE dt = %s AND location_id = %s`. -/
def store_weather_data_hourly (db : List StoredHourly) (d : ValidatedHourly)
    (locId : Nat) : StoreResult StoredHourly :=
  if db.any (fun row => row.data.dt == d.dt && row.locationId == locId) then
    { db := db, returnValue := 0, failedInsertsDelta := 1,
      sqlStatus := "failure", sqlError := some "Duplicate record" }
  else
    { db := db ++ [⟨d, locId⟩], returnValue := 1, failedInsertsDelta := 0,
      sqlStatus := "Successfully inserted timestamp", sqlError := none }

/-- Per-key tail of the engine `run` loop, common to both pipelines: the
store step runs only when validation produced a value. On a validation
abort the table is untouched and `failed_sql_inserts` is not incremented;
the failure audit row reported here is the one `handle_sql_failure` already
wrote from inside the validator. -/
def process_validated (store : List ρ → σ → StoreResult ρ)
    (v : Option σ) (db : List ρ) : StoreResult ρ :=
  match v with
  | none =>
    { db := db, returnValue := 0, failedInsertsDelta := 0,
      sqlStatus := "failure", sqlError := some "validation" }
  | some d => store db d

/-! ## Concrete values used to evaluate the definitions -/

/-- A tracking row as it looks mid-run. -/
def initialTracking : TrackingState :=
  { status := "started", previousStatus := none, requestsMadeToday := 7,
    dailyLimitReached := false, stoppedReason := none, forceRestart := false }

/-- A network on which every attempt raises a transport exception. -/
def allErrorsNet : Nat → AttemptResult := fun _ => AttemptResult.transportError

/-- A network whose first attempt raises and whose later attempts return 200. -/
def recoverNet : Nat → AttemptResult := fun i =>
  if i == 0 then AttemptResult.transportError else AttemptResult.response 200 false

/-- A network that answers every attempt with an unclassified status 401. -/
def unauthorizedNet : Nat → AttemptResult := fun _ => AttemptResult.response 401 false

/-- A daily-summary payload whose `temperature` object is entirely absent:
`data.get('temperature', {}).get('min', 0.0)` then yields the default 0.0,
not `None`. All other members carry ordinary values. -/
def absentTempPayload : DailySummaryPayload :=
  { lat := .val 33, lon := .val (-78), date := .val 1685577600,
    tz := .val (-14400), units := .val "metric",
    cloudCoverAfternoon := .val 50, humidityAfternoon := .val 60,
    precipitationTotal := .val 0, temperatureMin := .absent,
    temperatureMax := .absent, temperatureAfternoon := .absent,
    temperatureNight := .absent, temperatureEvening := .absent,
    temperatureMorning := .absent, pressureAfternoon := .val 1012,
    windMaxSpeed := .val 5, windMaxDirection := .val 180 }

/-- The same payload with `temperature.min` present but explicitly null. -/
def nullTempPayload : DailySummaryPayload :=
  { absentTempPayload with
    temperatureMin := .null, temperatureMax := .val 30,
    temperatureAfternoon := .val 28, temperatureNight := .val 22,
    temperatureEvening := .val 25, temperatureMorning := .val 21 }

/-- An hourly data point whose `temp` member is explicitly null. -/
def nullTempPoint : HourlyPoint :=
  { dt := .val 1685577600, sunrise := .val 1685592000, sunset := .val 1685644000,
    temp := .null, feelsLike := .val 26, pressure := .val 1013,
    humidity := .val 70, dewPoint := .val 19, visibility := .val 10000,
    description := .val "clear sky", clouds := .val 0, windSpeed := .val 3,
    windDeg := .val 120 }

/-- A timemachine response carrying `nullTempPoint`. -/
def nullTempResponse : HourlyResponse :=
  { lat := .val 33, lon := .val (-78), timezone := .val "America/New_York",
    timezoneOffset := .val (-14400), dataPoints := [nullTempPoint] }

/-- A validated daily row ready for insertion. -/
def sampleDaily : ValidatedDaily :=
  { lat := some 33, lon := some (-78), tzoff := -14400, date := 1685577600,
    units := some "metric", cloudCoverAfternoon := some 50,
    humidityAfternoon := some 60, precipitationTotal := some 0,
    temperatureMin := some 20, temperatureMax := some 30,
    temperatureAfternoon := some 28, temperatureNight := some 22,
    temperatureEvening := some 25, temperatureMorning := some 21,
    pressureAfternoon := some 1012, windMaxSpeed := some 5,
    windMaxDirection := some 180 }

/-- A validated hourly row ready for insertion. -/
def sampleHourly : ValidatedHourly :=
  { dt := some 1685577600, sunrise := some 1685592000, sunset := some 1685644000,
    temp := some 25, feelsLike := some 26, pressure := some 1013,
    humidity := some 70, dewPoint := some 19, visibility := 10000,
    description := "clear sky", clouds := some 0, windSpeed := some 3,
    windDeg := some 120, lat := some 33, lon := some (-78),
    timezone := some "America/New_York", timezoneOffset := some (-14400) }

/-! ## Shared helper lemmas -/

/-- Elements of the generated series stay within the inclusive range. -/
theorem mem_genSeries_bounds {stopT startT stride x : Int} (hs : 0 < stride)
    (hrange : stopT ≤ startT) (hx : x ∈ genSeries stopT startT stride) :
    stopT ≤ x ∧ x ≤ startT := by
  simp only [genSeries, List.mem_map, List.mem_range] at hx
  obtain ⟨k, hk, rfl⟩ := hx
  rw [seriesLen, if_pos hrange] at hk
  have hq : (0 : ℤ) ≤ (startT - stopT) / stride :=
    Int.ediv_nonneg (by omega) (le_of_lt hs)
  have hk2 : (k : ℤ) ≤ (startT - stopT) / stride := by
    have hk1 : k ≤ ((startT - stopT) / stride).toNat := Nat.lt_succ_iff.mp hk
    calc (k : ℤ) ≤ ((((startT - stopT) / stride).toNat : ℕ) : ℤ) := by exact_mod_cast hk1
      _ = (startT - stopT) / stride := Int.toNat_of_nonneg hq
  refine ⟨?_, ?_⟩
  · have hpos : (0 : ℤ) ≤ (k : ℤ) * stride :=
      mul_nonneg (Int.natCast_nonneg k) (le_of_lt hs)
    omega
  · have h1 : (k : ℤ) * stride ≤ ((startT - stopT) / stride) * stride :=
      mul_le_mul_of_nonneg_right hk2 (le_of_lt hs)
    have h3 := Int.ediv_add_emod (startT - stopT) stride
    have h4 := Int.emod_nonneg (startT - stopT) (ne_of_gt hs)
    have h2 : ((startT - stopT) / stride) * stride ≤ startT - stopT := by
      rw [mul_comm]
      omega
    omega

/-- The generated series has no duplicates when the stride is positive. -/
theorem genSeries_nodup (stopT startT stride : Int) (hs : 0 < stride) :
    (genSeries stopT startT stride).Nodup := by
  unfold genSeries
  refine List.Nodup.map ?_ (List.nodup_range _)
  intro a b hab
  have h1 : (a : ℤ) * stride = (b : ℤ) * stride := by
    have := add_left_cancel hab
    exact this
  have h2 : (a : ℤ) = (b : ℤ) := mul_right_cancel₀ (ne_of_gt hs) h1
  exact_mod_cast h2

/-- The gap query output is the series filtered to keys not in the store. -/
theorem mem_gapDetect {E : List Int} {stopT startT stride x : Int} :
    x ∈ gapDetect E stopT startT stride ↔
      x ∈ genSeries stopT startT stride ∧ x ∉ E := by
  simp [gapDetect]

/-- Full characterization of one gap query at a positive stride: disjoint
from the existing keys, duplicate-free, inside the range, jointly covering
the series with the existing keys, and a subset of the series. -/
theorem gapDetect_spec (E : List Int) (stopT startT stride : Int)
    (hs : 0 < stride) (hrange : stopT ≤ startT) :
    (gapDetect E stopT startT stride).Disjoint E ∧
    (gapDetect E stopT startT stride).Nodup ∧
    (gapDetect E stopT startT stride).all
      (fun x => decide (stopT ≤ x) && decide (x ≤ startT)) = true ∧
    genSeries stopT startT stride ⊆ gapDetect E stopT startT stride ++ E ∧
    gapDetect E stopT startT stride ⊆ genSeries stopT startT stride := by
  refine ⟨?_, ?_, ?_, ?_, ?_⟩
  · intro a ha haE
    exact (mem_gapDetect.mp ha).2 haE
  · exact (genSeries_nodup stopT startT stride hs).filter _
  · rw [List.all_eq_true]
    intro x hx
    have hb := mem_genSeries_bounds hs hrange (mem_gapDetect.mp hx).1
    simpa using hb
  · intro x hx
    rw [List.mem_append]
    by_cases hE : x ∈ E
    · exact Or.inr hE
    · exact Or.inl (mem_gapDetect.mpr ⟨hx, hE⟩)
  · intro x hx
    exact (mem_gapDetect.mp hx).1

/-- Reversing then truncating takes the last elements in reverse order. -/
theorem reverse_take_eq_drop_reverse (l : List α) (n : Nat) :
    l.reverse.take n = (l.drop (l.length - n)).reverse := by
  have h := List.rtake_eq_reverse_take_reverse (l := l) (n := n)
  rw [List.rtake] at h
  rw [h, List.reverse_reverse]

/-! ## C1: the failure-rate circuit breaker -/

/-- C1 (counterexample): with 15 failures and 0 successes in the trailing
2 minutes, `check_failure_rate` reports closed (False), because the code
additionally requires `success_count > 0`; the claim asserts the check
reports open there. -/
theorem check_failure_rate_fifteen_zero_closed :
    check_failure_rate 15 0 = false := rfl

/-- C1 (amended): the circuit-breaker check reports open exactly when the
failed-call count exceeds 10, the succeeded count is positive, and the
failed/succeeded ratio exceeds 0.2; in particular any window with zero
successes reports closed. -/
theorem check_failure_rate_open_iff (failureCount successCount : Nat) :
    check_failure_rate failureCount successCount = true ↔
      10 < failureCount ∧ 0 < successCount ∧
        (0.2 : ℚ) < (failureCount : ℚ) / (successCount : ℚ) := by
  simp [check_failure_rate, and_assoc]

/-! ## C8: the daily-cap check -/

/-- C8 (counterexample): with a configured daily limit of 0 and an observed
count of 0 calls since UTC midnight, the check signals halt, marks the
limit flag and records the stopped-warn transition, because the limit
branch `requests_made_today >= self.daily_limit` fires before the
rollover branch; the claim asserts a count of exactly 0 always clears the
flag and does not signal halt. -/
theorem daily_limit_zero_count_halts :
    (check_daily_limit_reached 0 0 initialTracking).2 = true ∧
    (check_daily_limit_reached 0 0 initialTracking).1.dailyLimitReached = true ∧
    (check_daily_limit_reached 0 0 initialTracking).1.status = "stopped-warn" :=
  ⟨rfl, rfl, rfl⟩

/-- C8 (amended): whenever the count of calls since UTC midnight reaches the
daily limit, the check signals halt, sets `daily_limit_reached`, and records
a stopped-warn transition with reason "Daily limit reached"; whenever the
count is exactly 0 and strictly below the daily limit, the check clears the
flag, resets the persisted counter to 0, and does not signal halt. -/
theorem daily_limit_check_spec (count dailyLimit : Nat) (st : TrackingState) :
    (dailyLimit ≤ count →
      check_daily_limit_reached count dailyLimit st =
        ({ st with
            status := "stopped-warn", previousStatus := some st.status,
            dailyLimitReached := true,
            stoppedReason := some "Daily limit reached",
            forceRestart := false }, true)) ∧
    (count = 0 → count < dailyLimit →
      check_daily_limit_reached count dailyLimit st =
        ({ st with requestsMadeToday := 0, dailyLimitReached := false },
          false)) := by
  constructor
  · intro h
    simp [check_daily_limit_reached, insert_tracking_log, h]
  · intro h0 hlt
    subst h0
    have hne : ¬ dailyLimit ≤ 0 := by omega
    simp [check_daily_limit_reached, hne]

/-- C8 (witness): the amended theorem evaluated at count 12 against limit 10
and at count 0 against limit 10. -/
theorem daily_limit_check_spec_witness :
    check_daily_limit_reached 12 10 initialTracking =
      ({ initialTracking with
          status := "stopped-warn",
          previousStatus := some initialTracking.status,
          dailyLimitReached := true,
          stoppedReason := some "Daily limit reached",
          forceRestart := false }, true) ∧
    check_daily_limit_reached 0 10 initialTracking =
      ({ initialTracking with
          requestsMadeToday := 0,
          dailyLimitReached := false }, false) :=
  ⟨(daily_limit_check_spec 12 10 initialTracking).1 (by decide),
   (daily_limit_check_spec 0 10 initialTracking).2 rfl (by decide)⟩

/-! ## C5: the gap detector -/

/-- C5 (counterexample): with existing keys E = [172800] and the daily range
from 0 to 86400, the key 172800 belongs to the union of the gap output and
E but not to the regular daily sequence over the range, so the union does
not equal the sequence; the claim asserts equality for every existing-key
set. -/
theorem gap_union_exceeds_sequence :
    ((172800 : Int) ∈ generate_missing_daily_timestamps [172800] 0 86400 ∨
      (172800 : Int) ∈ ([172800] : List Int)) ∧
    (172800 : Int) ∉ genSeries 0 86400 86400 := by
  decide

/-- C5 (amended): for every existing-key set E and range with stop strictly
before start, each gap output (daily and hourly) is disjoint from E,
duplicate-free, within the range, and a subset of the regular sequence over
the range, and the sequence is covered by the gap output together with E;
hence the union of the output with the in-range part of E equals the full
regular sequence. -/
theorem gap_detector_properties (E : List Int) (stopT startT : Int)
    (h : stopT < startT) :
    ((generate_missing_daily_timestamps E stopT startT).Disjoint E ∧
      (generate_missing_daily_timestamps E stopT startT).Nodup ∧
      (generate_missing_daily_timestamps E stopT startT).all
        (fun x => decide (stopT ≤ x) && decide (x ≤ startT)) = true ∧
      genSeries stopT startT 86400 ⊆
        generate_missing_daily_timestamps E stopT startT ++ E ∧
      generate_missing_daily_timestamps E stopT startT ⊆
        genSeries stopT startT 86400) ∧
    ((generate_missing_timestamps E stopT startT).Disjoint E ∧
      (generate_missing_timestamps E stopT startT).Nodup ∧
      (generate_missing_timestamps E stopT startT).all
        (fun x => decide (stopT ≤ x) && decide (x ≤ startT)) = true ∧
      genSeries stopT startT 3600 ⊆
        generate_missing_timestamps E stopT startT ++ E ∧
      generate_missing_timestamps E stopT startT ⊆
        genSeries stopT startT 3600) :=
  ⟨gapDetect_spec E stopT startT 86400 (by omega) (le_of_lt h),
   gapDetect_spec E stopT startT 3600 (by omega) (le_of_lt h)⟩

/-- C5 (witness): the amended theorem evaluated at E = [86400] over the
range from 0 to 172800. -/
theorem gap_detector_properties_witness :
    (0 : Int) < 172800 ∧
    (((generate_missing_daily_timestamps [86400] 0 172800).Disjoint [86400] ∧
      (generate_missing_daily_timestamps [86400] 0 172800).Nodup ∧
      (generate_missing_daily_timestamps [86400] 0 172800).all
        (fun x => decide ((0 : Int) ≤ x) && decide (x ≤ 172800)) = true ∧
      genSeries 0 172800 86400 ⊆
        generate_missing_daily_timestamps [86400] 0 172800 ++ [86400] ∧
      generate_missing_daily_timestamps [86400] 0 172800 ⊆
        genSeries 0 172800 86400) ∧
    ((generate_missing_timestamps [86400] 0 172800).Disjoint [86400] ∧
      (generate_missing_timestamps [86400] 0 172800).Nodup ∧
      (generate_missing_timestamps [86400] 0 172800).all
        (fun x => decide ((0 : Int) ≤ x) && decide (x ≤ 172800)) = true ∧
      genSeries 0 172800 3600 ⊆
        generate_missing_timestamps [86400] 0 172800 ++ [86400] ∧
      generate_missing_timestamps [86400] 0 172800 ⊆
        genSeries 0 172800 3600)) :=
  ⟨by decide, gap_detector_properties [86400] 0 172800 (by decide)⟩

/-! ## C6: backwards-range configuration error -/

/-- C6 (counterexample): with start equal to stop, `validate_time_range`
raises and `main` catches the `ValueError`, prints a Configuration Error
message and returns; the process then ends with exit status 0, not the
non-zero status the claim asserts. -/
theorem main_backwards_range_exits_zero :
    mainDaily 5 5 [] =
      { exitCode := some 0, configErrorReported := true, ranGapQuery := false,
        createdBatch := false, ranEngine := false, printedNoWork := false } := rfl

/-- C6 (amended): for every range where start is not strictly more recent
than stop, the configuration error is raised and reported before any gap
query, batch creation or remote call, and the process exits with status 0
(the `ValueError` is caught and only printed). -/
theorem main_config_error_spec (startT stopT : Int) (E : List Int)
    (h : startT ≤ stopT) :
    mainDaily startT stopT E =
      { exitCode := some 0, configErrorReported := true, ranGapQuery := false,
        createdBatch := false, ranEngine := false, printedNoWork := false } := by
  simp [mainDaily, validate_time_range, h]

/-- C6 (witness): the amended theorem evaluated at start 3, stop 7. -/
theorem main_config_error_spec_witness :
    mainDaily 3 7 [42] =
      { exitCode := some 0, configErrorReported := true, ranGapQuery := false,
        createdBatch := false, ranEngine := false, printedNoWork := false } :=
  main_config_error_spec 3 7 [42] (by decide)

/-! ## C9: the batch materializer -/

/-- C9 (confirmed): the materialized batch has length min(n, limit)
and equals the last limit elements of the gap list in reverse order; a run
over an empty gap list creates no batch file and reports that there is no
work. -/
theorem batch_materializer_spec (l : List Int) (limit : Nat)
    (E : List Int) (stopT startT : Int) :
    (create_batch_file l limit).length = min l.length limit ∧
    create_batch_file l limit = (l.drop (l.length - limit)).reverse ∧
    (stopT < startT →
      generate_missing_daily_timestamps E stopT startT = [] →
        (mainDaily startT stopT E).createdBatch = false ∧
        (mainDaily startT stopT E).printedNoWork = true) := by
  refine ⟨?_, reverse_take_eq_drop_reverse l limit, ?_⟩
  · simp [create_batch_file, Nat.min_comm]
  · intro h hgap
    have hv : ¬ startT ≤ stopT := by omega
    simp [mainDaily, validate_time_range, hv, hgap]

/-- C9 (witness): the theorem evaluated on the gap list [10, 20, 30] with
limit 2, and on a range whose daily gaps are exhausted by the existing
keys [0, 86400]. -/
theorem batch_materializer_spec_witness :
    (create_batch_file ([10, 20, 30] : List Int) 2).length =
      min ([10, 20, 30] : List Int).length 2 ∧
    create_batch_file ([10, 20, 30] : List Int) 2 =
      (([10, 20, 30] : List Int).drop
        (([10, 20, 30] : List Int).length - 2)).reverse ∧
    (mainDaily 86400 0 [0, 86400]).createdBatch = false ∧
    (mainDaily 86400 0 [0, 86400]).printedNoWork = true :=
  ⟨(batch_materializer_spec [10, 20, 30] 2 [0, 86400] 0 86400).1,
   (batch_materializer_spec [10, 20, 30] 2 [0, 86400] 0 86400).2.1,
   ((batch_materializer_spec [10, 20, 30] 2 [0, 86400] 0 86400).2.2
      (by decide) (by decide)).1,
   ((batch_materializer_spec [10, 20, 30] 2 [0, 86400] 0 86400).2.2
      (by decide) (by decide)).2⟩

/-! ## C2: transport-error retries -/

/-- C2 (counterexample): in the hourly pipeline a single transport error
terminates the run: the helper makes one attempt, the exception reaches the
outer handler, tracking is set to stopped-err with force_restart true, and
`sys.exit(1)` runs; the claim asserts up to 3 attempts in either pipeline
and that a transport error never terminates the run. -/
theorem hourly_transport_error_fatal :
    call_openweather_api_hourly AttemptResult.transportError 2 0 =
      { outcome := CallOutcome.fatalExit, failedRequestsDelta := 0,
        counterUpdates := 1,
        tracking := [⟨"stopped-err", some "API Error", true⟩] } := rfl

/-- C2 (amended): in the daily pipeline each key is attempted up to 3 times,
a transient transport error triggering an immediate retry; after the third
failed attempt the outcome is recorded and the key skipped without
terminating the run, and an error followed by a 200 response yields success.
In the hourly pipeline only one attempt is made and a transport error
terminates the run with a stopped-err, force-restart tracking transition. -/
theorem transport_retry_spec (net net2 : Nat → AttemptResult)
    (total completed : Nat)
    (hall : ∀ i, net i = AttemptResult.transportError)
    (h0 : net2 0 = AttemptResult.transportError)
    (h1 : net2 1 = AttemptResult.response 200 false) :
    call_openweather_api_daily net total completed =
      { outcome := CallOutcome.skipKey, failedRequestsDelta := 0,
        counterUpdates := 1,
        tracking := [⟨"Processing",
          some "Error fetching data after 3 attempts. Skipping this date",
          true⟩] } ∧
    call_openweather_api_daily net2 total completed =
      { outcome := CallOutcome.success, failedRequestsDelta := 0,
        counterUpdates := 1,
        tracking := [⟨"Processing: " ++ toString completed ++ " of " ++
          toString total, none, false⟩] } ∧
    call_openweather_api_hourly AttemptResult.transportError total completed =
      { outcome := CallOutcome.fatalExit, failedRequestsDelta := 0,
        counterUpdates := 1,
        tracking := [⟨"stopped-err", some "API Error", true⟩] } := by
  refine ⟨?_, ?_, rfl⟩
  · simp [call_openweather_api_daily, dailySummaryCallAux, hall]
  · simp [call_openweather_api_daily, dailySummaryCallAux, h0, h1]

/-- C2 (witness): the amended theorem evaluated on a network that always
fails and on one that fails once and then answers 200. -/
theorem transport_retry_spec_witness :
    call_openweather_api_daily allErrorsNet 2 0 =
      { outcome := CallOutcome.skipKey, failedRequestsDelta := 0,
        counterUpdates := 1,
        tracking := [⟨"Processing",
          some "Error fetching data after 3 attempts. Skipping this date",
          true⟩] } ∧
    call_openweather_api_daily recoverNet 2 0 =
      { outcome := CallOutcome.success, failedRequestsDelta := 0,
        counterUpdates := 1,
        tracking := [⟨"Processing: " ++ toString 0 ++ " of " ++ toString 2,
          none, false⟩] } ∧
    call_openweather_api_hourly AttemptResult.transportError 2 0 =
      { outcome := CallOutcome.fatalExit, failedRequestsDelta := 0,
        counterUpdates := 1,
        tracking := [⟨"stopped-err", some "API Error", true⟩] } :=
  transport_retry_spec allErrorsNet recoverNet 2 0 (fun _ => rfl) rfl rfl

/-! ## C3: unclassified response codes -/

/-- C3 (code bug): on an unclassified status code (here 401) the daily
helper matches no branch, silently re-issues the request on each of its 3
attempts, increments no failure counter, and finally falls off the loop,
returning a bare None whose tuple unpacking in `run` crashes the run; the
hourly helper implements the claimed behavior, counting a failure and
returning so the run continues with the next key. -/
theorem unhandled_code_divergence :
    call_openweather_api_daily unauthorizedNet 1 0 =
      { outcome := CallOutcome.crashNoneUnpack, failedRequestsDelta := 0,
        counterUpdates := 0, tracking := [] } ∧
    call_openweather_api_hourly (AttemptResult.response 401 false) 1 0 =
      { outcome := CallOutcome.skipKey, failedRequestsDelta := 1,
        counterUpdates := 1,
        tracking := [⟨"Processing", some "API Error: Unhandled API error",
          true⟩] } := by
  constructor <;> rfl

/-! ## C10: force-restart on non-fatal paths -/

/-- C10 (confirmed): on the two non-fatal per-key failure paths — the daily
engine exhausting its transport retries and the hourly engine receiving an
unclassified status code — the run continues with the key skipped, yet the
tracking row is upserted with force_restart true, so an external monitor
reading the TrackingRecord sees the force-restart flag set even though the
run was not fatally halted. -/
theorem nonfatal_paths_set_force_restart (net : Nat → AttemptResult)
    (total completed code : Nat) (st st2 : TrackingState)
    (hall : ∀ i, net i = AttemptResult.transportError)
    (hc200 : code ≠ 200) (hc404 : code ≠ 404) (hc403 : code ≠ 403)
    (hc500 : code < 500) :
    (call_openweather_api_daily net total completed).outcome =
      CallOutcome.skipKey ∧
    (applyUpserts st
        (call_openweather_api_daily net total completed).tracking).forceRestart =
      true ∧
    (call_openweather_api_hourly (AttemptResult.response code false)
        total completed).outcome = CallOutcome.skipKey ∧
    (applyUpserts st2
        (call_openweather_api_hourly (AttemptResult.response code false)
          total completed).tracking).forceRestart = true := by
  have h500 : ¬ (500 ≤ code) := by omega
  have hd : call_openweather_api_daily net total completed =
      { outcome := CallOutcome.skipKey, failedRequestsDelta := 0,
        counterUpdates := 1,
        tracking := [⟨"Processing",
          some "Error fetching data after 3 attempts. Skipping this date",
          true⟩] } := by
    simp [call_openweather_api_daily, dailySummaryCallAux, hall]
  have hh : call_openweather_api_hourly (AttemptResult.response code false)
      total completed =
      { outcome := CallOutcome.skipKey, failedRequestsDelta := 1,
        counterUpdates := 1,
        tracking := [⟨"Processing", some "API Error: Unhandled API error",
          true⟩] } := by
    simp [call_openweather_api_hourly, hc200, hc404, hc403, h500]
  exact ⟨by rw [hd], by rw [hd]; rfl, by rw [hh], by rw [hh]; rfl⟩

/-- C10 (witness): the theorem evaluated on an always-failing network for
the daily pipeline and status code 401 for the hourly pipeline. -/
theorem nonfatal_paths_set_force_restart_witness :
    (call_openweather_api_daily allErrorsNet 3 1).outcome =
      CallOutcome.skipKey ∧
    (applyUpserts initialTracking
        (call_openweather_api_daily allErrorsNet 3 1).tracking).forceRestart =
      true ∧
    (call_openweather_api_hourly (AttemptResult.response 401 false)
        3 1).outcome = CallOutcome.skipKey ∧
    (applyUpserts initialTracking
        (call_openweather_api_hourly (AttemptResult.response 401 false)
          3 1).tracking).forceRestart = true :=
  nonfatal_paths_set_force_restart allErrorsNet 3 1 401
    initialTracking initialTracking (fun _ => rfl)
    (by decide) (by decide) (by decide) (by decide)

/-! ## C4: payload validation -/

/-- C4 (counterexample): a daily payload whose temperature members are
entirely absent passes validation — every absent critical member silently
defaults to 0.0 instead of None, so the missing-field check does not fire —
and the subsequent store step inserts a StoredRecord built from defaults;
the claim asserts that an absent required field aborts validation for the
key. -/
theorem daily_validation_absent_field_passes :
    (extract_and_validate_daily absentTempPayload).isSome = true ∧
    (process_validated store_weather_data_daily
      (extract_and_validate_daily absentTempPayload) []).db.length = 1 := by
  constructor <;> rfl

/-- C4 (amended): in the hourly pipeline a critical field that is absent or
null aborts validation for the key; in the daily pipeline only a critical
field explicitly present as null (or a null date) aborts, absent fields
silently defaulting. An abort creates no StoredRecord and leaves the
failed-insert counter untouched (only a failure audit row is written), and
the run continues. -/
theorem validation_abort_spec (p : DailySummaryPayload) (r : HourlyResponse)
    (w : HourlyPoint) (ddb : List ValidatedDaily) (hdb : List StoredHourly)
    (hw : r.dataPoints.head? = some w)
    (hcrit : w.temp.extractOpt = none ∨ w.feelsLike.extractOpt = none ∨
      w.pressure.extractOpt = none ∨ w.humidity.extractOpt = none ∨
      w.dt.extractOpt = none)
    (hnull : p.date = JField.null ∨ p.cloudCoverAfternoon = JField.null ∨
      p.humidityAfternoon = JField.null ∨ p.precipitationTotal = JField.null ∨
      p.temperatureMin = JField.null ∨ p.temperatureMax = JField.null ∨
      p.pressureAfternoon = JField.null ∨ p.windMaxSpeed = JField.null) :
    extract_and_validate_hourly r = none ∧
    extract_and_validate_daily p = none ∧
    (process_validated (fun db2 d => store_weather_data_hourly db2 d 1)
      (extract_and_validate_hourly r) hdb).db = hdb ∧
    (process_validated (fun db2 d => store_weather_data_hourly db2 d 1)
      (extract_and_validate_hourly r) hdb).failedInsertsDelta = 0 ∧
    (process_validated store_weather_data_daily
      (extract_and_validate_daily p) ddb).db = ddb ∧
    (process_validated store_weather_data_daily
      (extract_and_validate_daily p) ddb).failedInsertsDelta = 0 := by
  have hhh : extract_and_validate_hourly r = none := by
    rw [extract_and_validate_hourly, hw]
    rcases hcrit with h | h | h | h | h <;> simp [h]
  have hdd : extract_and_validate_daily p = none := by
    rcases hnull with h | h | h | h | h | h | h | h
    · simp [extract_and_validate_daily, h, JField.extract]
    all_goals
      cases hpd : p.date <;> cases hpt : p.tz <;>
        simp [extract_and_validate_daily, hpd, hpt, h, JField.extract]
  refine ⟨hhh, hdd, ?_, ?_, ?_, ?_⟩ <;> simp [hhh, hdd, process_validated]

/-- C4 (witness): the amended theorem evaluated on an hourly response with a
null temperature and a daily payload with a null minimum temperature. -/
theorem validation_abort_spec_witness :
    extract_and_validate_hourly nullTempResponse = none ∧
    extract_and_validate_daily nullTempPayload = none ∧
    (process_validated (fun db2 d => store_weather_data_hourly db2 d 1)
      (extract_and_validate_hourly nullTempResponse) []).db = [] ∧
    (process_validated (fun db2 d => store_weather_data_hourly db2 d 1)
      (extract_and_validate_hourly nullTempResponse) []).failedInsertsDelta = 0 ∧
    (process_validated store_weather_data_daily
      (extract_and_validate_daily nullTempPayload) []).db = [] ∧
    (process_validated store_weather_data_daily
      (extract_and_validate_daily nullTempPayload) []).failedInsertsDelta = 0 :=
  validation_abort_spec nullTempPayload nullTempResponse nullTempPoint [] []
    rfl (Or.inl rfl) (Or.inr (Or.inr (Or.inr (Or.inr (Or.inl rfl)))))

/-! ## C7: idempotent store -/

/-- C7 (confirmed): storing a record whose key is not yet present inserts
exactly one row; storing it again is detected by the pre-insert existence
check, reported as a duplicate failure outcome, counted as a failed insert,
returns 0 without raising, and leaves the table unchanged, so exactly one
StoredRecord for the key exists. This holds for the daily key (date) and
the hourly key (dt, location_id). -/
theorem store_twice_idempotent (db : List ValidatedDaily) (d : ValidatedDaily)
    (hdb : List StoredHourly) (hd : ValidatedHourly) (locId : Nat)
    (h1 : db.any (fun row => row.date == d.date) = false)
    (h2 : hdb.any
      (fun row => row.data.dt == hd.dt && row.locationId == locId) = false) :
    (store_weather_data_daily db d).db = db ++ [d] ∧
    (store_weather_data_daily db d).returnValue = 1 ∧
    (store_weather_data_daily (db ++ [d]) d).db = db ++ [d] ∧
    (store_weather_data_daily (db ++ [d]) d).returnValue = 0 ∧
    (store_weather_data_daily (db ++ [d]) d).failedInsertsDelta = 1 ∧
    (store_weather_data_daily (db ++ [d]) d).sqlError = some "Duplicate record" ∧
    ((db ++ [d]).filter (fun row => row.date == d.date)).length = 1 ∧
    (store_weather_data_hourly hdb hd locId).db = hdb ++ [StoredHourly.mk hd locId] ∧
    (store_weather_data_hourly hdb hd locId).returnValue = 1 ∧
    (store_weather_data_hourly (hdb ++ [StoredHourly.mk hd locId]) hd locId).db =
      hdb ++ [StoredHourly.mk hd locId] ∧
    (store_weather_data_hourly (hdb ++ [StoredHourly.mk hd locId]) hd locId).returnValue = 0 ∧
    (store_weather_data_hourly
      (hdb ++ [StoredHourly.mk hd locId]) hd locId).failedInsertsDelta = 1 ∧
    (store_weather_data_hourly (hdb ++ [StoredHourly.mk hd locId]) hd locId).sqlError =
      some "Duplicate record" ∧
    ((hdb ++ [StoredHourly.mk hd locId]).filter
      (fun row => row.data.dt == hd.dt && row.locationId == locId)).length =
      1 := by
  have hc2 : ((db ++ [d]).any (fun row => row.date == d.date)) = true := by
    simp [List.any_append]
  have hc4 : ((hdb ++ [StoredHourly.mk hd locId]).any
      (fun row => row.data.dt == hd.dt && row.locationId == locId)) = true := by
    simp [List.any_append]
  have hf1 : ((db ++ [d]).filter (fun row => row.date == d.date)).length = 1 := by
    rw [List.filter_append]
    have hnil : db.filter (fun row => row.date == d.date) = [] := by
      rw [List.filter_eq_nil_iff]
      intro a ha
      exact (List.any_eq_false.mp h1) a ha
    rw [hnil]
    simp
  have hf2 : ((hdb ++ [StoredHourly.mk hd locId]).filter
      (fun row => row.data.dt == hd.dt && row.locationId == locId)).length =
      1 := by
    rw [List.filter_append]
    have hnil : hdb.filter
        (fun row => row.data.dt == hd.dt && row.locationId == locId) = [] := by
      rw [List.filter_eq_nil_iff]
      intro a ha
      exact (List.any_eq_false.mp h2) a ha
    rw [hnil]
    simp
  refine ⟨?_, ?_, ?_, ?_, ?_, ?_, hf1, ?_, ?_, ?_, ?_, ?_, ?_, hf2⟩
  · simp [store_weather_data_daily, h1]
  · simp [store_weather_data_daily, h1]
  · simp [store_weather_data_daily, hc2]
  · simp [store_weather_data_daily, hc2]
  · simp [store_weather_data_daily, hc2]
  · simp [store_weather_data_daily, hc2]
  · simp [store_weather_data_hourly, h2]
  · simp [store_weather_data_hourly, h2]
  · simp [store_weather_data_hourly, hc4]
  · simp [store_weather_data_hourly, hc4]
  · simp [store_weather_data_hourly, hc4]
  · simp [store_weather_data_hourly, hc4]

/-- C7 (witness): the theorem evaluated on empty tables with the sample
rows. -/
theorem store_twice_idempotent_witness :
    (store_weather_data_daily ([] : List ValidatedDaily) sampleDaily).db = [] ++ [sampleDaily] ∧
    (store_weather_data_daily ([] : List ValidatedDaily) sampleDaily).returnValue = 1 ∧
    (store_weather_data_daily (([] : List ValidatedDaily) ++ [sampleDaily]) sampleDaily).db =
      [] ++ [sampleDaily] ∧
    (store_weather_data_daily (([] : List ValidatedDaily) ++ [sampleDaily]) sampleDaily).returnValue =
      0 ∧
    (store_weather_data_daily
      ([] ++ [sampleDaily]) sampleDaily).failedInsertsDelta = 1 ∧
    (store_weather_data_daily (([] : List ValidatedDaily) ++ [sampleDaily]) sampleDaily).sqlError =
      some "Duplicate record" ∧
    ((([] : List ValidatedDaily) ++ [sampleDaily]).filter
      (fun row => row.date == sampleDaily.date)).length = 1 ∧
    (store_weather_data_hourly ([] : List StoredHourly) sampleHourly 1).db =
      [] ++ [StoredHourly.mk sampleHourly 1] ∧
    (store_weather_data_hourly ([] : List StoredHourly) sampleHourly 1).returnValue = 1 ∧
    (store_weather_data_hourly
      (([] : List StoredHourly) ++ [StoredHourly.mk sampleHourly 1]) sampleHourly 1).db =
      [] ++ [StoredHourly.mk sampleHourly 1] ∧
    (store_weather_data_hourly
      (([] : List StoredHourly) ++ [StoredHourly.mk sampleHourly 1]) sampleHourly 1).returnValue = 0 ∧
    (store_weather_data_hourly
      (([] : List StoredHourly) ++ [StoredHourly.mk sampleHourly 1]) sampleHourly 1).failedInsertsDelta = 1 ∧
    (store_weather_data_hourly
      (([] : List StoredHourly) ++ [StoredHourly.mk sampleHourly 1]) sampleHourly 1).sqlError =
      some "Duplicate record" ∧
    ((([] : List StoredHourly) ++ [StoredHourly.mk sampleHourly 1]).filter
      (fun row => row.data.dt == sampleHourly.dt &&
        row.locationId == 1)).length = 1 :=
  store_twice_idempotent [] sampleDaily [] sampleHourly 1 rfl rfl

end OpenWeatherPub
